import Mathlib

/-!
Verification of the funding-rate chart component.

The component lives in a single file together with a constants module
declaring the FundingDirection enum.  The numeric core is the function
getAllFundingRates, which projects one hourly funding rate to the three
display resolutions using arbitrary-precision decimal arithmetic
(BigNumber), so the multiplications are exact and are modelled here over
the rationals.  Undefined values and optional chaining of the host
language are modelled with Option, and property access on an absent
value is modelled as a thrown type error via Except.
-/

namespace FundingChart

/-- Modelled from the spec: the FundingRateResolution enum is declared in
a constants module that is not part of the provided sources; the spec
lists its three values OneHour, EightHour, Annualized in this order. -/
inductive FundingRateResolution where
| OneHour
| EightHour
| Annualized
deriving DecidableEq, Repr

/-- The FundingDirection enum from the constants module, with its three
declared values. -/
inductive FundingDirection where
| ToShort
| ToLong
| None
deriving DecidableEq, Repr

/-- The derived record mapping each resolution to a rate, as built by
getAllFundingRates. -/
structure AllFundingRates where
oneHour : ℚ
eightHour : ℚ
annualized : ℚ
deriving DecidableEq, Repr

/-- Indexing the record by a resolution key, as the component does with
the selected view. -/
def AllFundingRates.get (rates : AllFundingRates) : FundingRateResolution → ℚ
| FundingRateResolution.OneHour => rates.oneHour
| FundingRateResolution.EightHour => rates.eightHour
| FundingRateResolution.Annualized => rates.annualized

/-- The rate projector.  MustBigNumber wraps the number in an
arbitrary-precision decimal, whose multiplication by the integer
constants 8 and 24 * 365 is exact, so the arithmetic is modelled exactly
over the rationals.  The source default for a missing argument is 0. -/
def getAllFundingRates (oneHourRate : ℚ := 0) : AllFundingRates :=
⟨oneHourRate, oneHourRate * 8, oneHourRate * (24 * 365)⟩

/-- Calling convention of the host language: an absent argument is
undefined and the default parameter value 0 is substituted for it. -/
def getAllFundingRatesJS (arg : Option ℚ) : AllFundingRates :=
getAllFundingRates (arg.getD 0)

/-- One sample of the funding-rate time series. -/
structure FundingChartDatum where
time : ℤ
fundingRate : ℚ
direction : FundingDirection
deriving DecidableEq, Repr

/-- The component reads the element at index length - 1, which is
undefined for an empty sequence: the optional last element. -/
def latestDatum (data : List FundingChartDatum) : Option FundingChartDatum :=
data.getLast?

/-- latestFundingRate is undefined when the latest datum is undefined,
otherwise the projected rate of the latest datum at the selected
resolution. -/
def latestFundingRate (data : List FundingChartDatum)
(view : FundingRateResolution) : Option ℚ :=
(latestDatum data).map (fun d => (getAllFundingRates d.fundingRate).get view)

/-- The comparison x < 0 of the host language where x may be undefined:
comparing undefined with a number yields false. -/
def jsLtZero (x : Option ℚ) : Bool :=
match x with
| Option.none => false
| Option.some v => decide (v < 0)

/-- The styled output colors the value by the isNegative flag. -/
def styledOutputColor (isNegative : Bool) : String :=
if isNegative then "var(--color-negative)" else "var(--color-positive)"

/-- The direction-to-color mapping used inside renderYAxisLabel. -/
def directionAccentColor : FundingDirection → String
| FundingDirection.ToLong => "var(--color-negative)"
| FundingDirection.ToShort => "var(--color-positive)"
| FundingDirection.None => "var(--color-layer-6)"

/-- The two curves the series can select between. -/
inductive Curve where
| curveMonotoneX
| curveStepAfter
deriving DecidableEq, Repr

/-- The curve-selection policy of the series configuration. -/
def getCurve (zoom : ℚ) : Curve :=
if zoom > 12 then Curve.curveMonotoneX else Curve.curveStepAfter

/-- The part of the tooltip context the component reads. -/
structure TooltipContext where
tooltipOpen : Bool
deriving DecidableEq, Repr

/-- The local state the tooltip context callback writes: before the first
callback the stored context is undefined. -/
structure ChartState where
tooltipContext : Option TooltipContext
deriving DecidableEq, Repr

/-- The state on mount: the useState initial value is undefined. -/
def initialChartState : ChartState :=
⟨Option.none⟩

/-- The registered onTooltipContext callback stores the received context
in local state and does nothing else. -/
def onTooltipContext (_s : ChartState) (ctx : TooltipContext) : ChartState :=
⟨Option.some ctx⟩

/-- A reachable state: the result of any finite sequence of tooltip
context callbacks starting from the mount state. -/
def runEvents (events : List TooltipContext) : ChartState :=
events.foldl onTooltipContext initialChartState

/-- Whether the tooltip is open in a state: undefined context counts as
not open. -/
def tooltipOpenFlag (s : ChartState) : Bool :=
match s.tooltipContext with
| Option.none => false
| Option.some c => c.tooltipOpen

/-- The isShowing flag of the current-rate overlay, the negation of the
optional chain over the stored context. -/
def currentFundingRateIsShowing (ctx : Option TooltipContext) : Bool :=
!(match ctx with
  | Option.none => false
  | Option.some c => c.tooltipOpen)

/-- An error thrown by property access on an undefined value. -/
inductive JsError where
| typeError
deriving DecidableEq, Repr

/-- The nearest-datum wrapper inside tooltip data. -/
structure NearestDatum where
datum : FundingChartDatum
deriving DecidableEq, Repr

/-- The tooltip data passed to the axis label renderers. -/
structure TooltipData where
nearestDatum : Option NearestDatum
deriving DecidableEq, Repr

/-- The value rendered by the x-axis label output. -/
structure XAxisLabel where
value : ℤ
deriving DecidableEq, Repr

/-- The value and accent color rendered by the y-axis label output. -/
structure YAxisLabel where
value : ℚ
accentColor : String
deriving DecidableEq, Repr

/-- renderXAxisLabel: the non-null assertion on tooltipData and the later
field access on the possibly undefined tooltipDatum are modelled as a
thrown type error when the value is absent. -/
def renderXAxisLabel (latest : Option FundingChartDatum)
(tooltipData : Option TooltipData) : Except JsError XAxisLabel :=
match tooltipData with
| Option.none => Except.error JsError.typeError
| Option.some td =>
  match (td.nearestDatum.map NearestDatum.datum).orElse (fun _ => latest) with
  | Option.none => Except.error JsError.typeError
  | Option.some d => Except.ok ⟨d.time⟩

/-- renderYAxisLabel: same fallback chain as renderXAxisLabel, then the
projected rate at the selected view and the direction accent color. -/
def renderYAxisLabel (latest : Option FundingChartDatum)
(view : FundingRateResolution)
(tooltipData : Option TooltipData) : Except JsError YAxisLabel :=
match tooltipData with
| Option.none => Except.error JsError.typeError
| Option.some td =>
  match (td.nearestDatum.map NearestDatum.datum).orElse (fun _ => latest) with
  | Option.none => Except.error JsError.typeError
  | Option.some d =>
    Except.ok ⟨(getAllFundingRates d.fundingRate).get view,
      directionAccentColor d.direction⟩

/-- The localization keys the component looks up. -/
inductive StringKey where
| RATE_1H
| RATE_8H
| ANNUALIZED
| CURRENT_RATE_1H
| CURRENT_RATE_8H
| CURRENT_ANNUALIZED_RATE
deriving DecidableEq, Repr

/-- The fallback x or empty-string of the host language, for a possibly
undefined localized string: undefined and the empty string are the only
falsy strings, and both fall back to the empty string. -/
def jsOrEmpty (s : Option String) : String :=
match s with
| Option.none => ""
| Option.some v => if v = "" then "" else v

/-- The toggle item label key for each resolution. -/
def resolutionStringKey : FundingRateResolution → StringKey
| FundingRateResolution.OneHour => StringKey.RATE_1H
| FundingRateResolution.EightHour => StringKey.RATE_8H
| FundingRateResolution.Annualized => StringKey.ANNUALIZED

/-- The enumeration order of the resolution keys, as iterated by the
toggle group items. -/
def fundingRateResolutionKeys : List FundingRateResolution :=
[FundingRateResolution.OneHour, FundingRateResolution.EightHour,
 FundingRateResolution.Annualized]

/-- One item of the toggle group. -/
structure ToggleItem where
value : FundingRateResolution
label : String
deriving DecidableEq, Repr

/-- The toggle group items: one per resolution key, labelled by the
localization lookup with the empty-string fallback. -/
def toggleGroupItems (stringGetter : StringKey → Option String) :
List ToggleItem :=
fundingRateResolutionKeys.map
  (fun r => ⟨r, jsOrEmpty (stringGetter (resolutionStringKey r))⟩)

/-- The useState initial value of the resolution selector. -/
def initialFundingRateView : FundingRateResolution :=
FundingRateResolution.OneHour

/-- Whether a fallible computation completed without a thrown error. -/
def exceptSucceeds {α : Type} (e : Except JsError α) : Bool :=
match e with
| Except.ok _ => true
| Except.error _ => false

/-- C1: for every rate r, the rate projector maps OneHour to r, EightHour
to r * 8 and Annualized to r * 24 * 365; it is a pure total function, so
there are no side effects and no error condition. -/
theorem getAllFundingRates_spec (r : ℚ) :
(getAllFundingRates r).get FundingRateResolution.OneHour = r ∧
(getAllFundingRates r).get FundingRateResolution.EightHour = r * 8 ∧
(getAllFundingRates r).get FundingRateResolution.Annualized = r * 24 * 365 := by
refine ⟨rfl, rfl, ?_⟩
show r * (24 * 365) = r * 24 * 365
ring

/-- C3: a call with no argument substitutes the default 0 and both calls
return the all-zero record. -/
theorem getAllFundingRates_default_zero :
getAllFundingRatesJS Option.none = getAllFundingRates 0 ∧
getAllFundingRates 0 = ⟨0, 0, 0⟩ := by
constructor
· rfl
· show (⟨0, 0 * 8, 0 * (24 * 365)⟩ : AllFundingRates) = ⟨0, 0, 0⟩
  norm_num

/-- C4: at every rate the EightHour entry is exactly 8 times the OneHour
entry, and hence the displayed current rate for an unchanged datum is
multiplied by exactly 8 when the selector moves from OneHour to
EightHour. -/
theorem eightHour_is_eight_times_oneHour (r : ℚ)
(data : List FundingChartDatum) :
(getAllFundingRates r).get FundingRateResolution.EightHour =
  8 * (getAllFundingRates r).get FundingRateResolution.OneHour ∧
latestFundingRate data FundingRateResolution.EightHour =
  (latestFundingRate data FundingRateResolution.OneHour).map (fun v => 8 * v) := by
constructor
· show r * 8 = 8 * r
  ring
· unfold latestFundingRate
  cases latestDatum data with
  | none => rfl
  | some d =>
    show Option.some (d.fundingRate * 8) = Option.some (8 * d.fundingRate)
    rw [mul_comm]

/-- C5: the direction-to-color mapping is total over the three-valued
direction enum, each value yields one of the three defined color tokens,
and the mapping is injective, so the three tokens are pairwise
distinct. -/
theorem directionAccentColor_total_distinct :
(∀ d : FundingDirection, directionAccentColor d ∈
  ["var(--color-negative)", "var(--color-positive)", "var(--color-layer-6)"]) ∧
Function.Injective directionAccentColor := by
constructor
· intro d
  cases d <;> simp [directionAccentColor]
· intro a b h
  cases a <;> cases b <;> first | rfl | (exfalso; revert h; decide)

/-- C8: the curve-selection policy returns the monotone-cubic curve
exactly when the zoom value is strictly greater than 12, and the
step-after curve otherwise. -/
theorem getCurve_spec (zoom : ℚ) :
(zoom > 12 → getCurve zoom = Curve.curveMonotoneX) ∧
(¬ zoom > 12 → getCurve zoom = Curve.curveStepAfter) := by
constructor
· intro h
  simp [getCurve, h]
· intro h
  simp [getCurve, h]

/-- Witness for C8 at the concrete zoom values 13 and 12. -/
theorem getCurve_spec_witness :
getCurve 13 = Curve.curveMonotoneX ∧ getCurve 12 = Curve.curveStepAfter :=
⟨(getCurve_spec 13).1 (by norm_num), (getCurve_spec 12).2 (by norm_num)⟩

/-- C7: in every state reachable by a sequence of tooltip context
callbacks from the mount state, the isShowing flag of the current-rate
overlay is the negation of the tooltip-open flag, so the overlay is
hidden exactly while the tooltip is open; the callback only stores the
context read by this flag. -/
theorem overlay_shown_iff_tooltip_closed (events : List TooltipContext) :
currentFundingRateIsShowing (runEvents events).tooltipContext =
  !tooltipOpenFlag (runEvents events) := by
cases h : (runEvents events).tooltipContext <;>
  simp [currentFundingRateIsShowing, tooltipOpenFlag, h]

/-- C9: the resolution toggle enumerates exactly the three resolution
values, once each in declaration order, so it is a three-way exclusive
selector, and its initial state on mount is the constant OneHour,
independent of any previous session. -/
theorem resolution_toggle_spec (stringGetter : StringKey → Option String) :
initialFundingRateView = FundingRateResolution.OneHour ∧
(toggleGroupItems stringGetter).map ToggleItem.value =
  [FundingRateResolution.OneHour, FundingRateResolution.EightHour,
   FundingRateResolution.Annualized] ∧
((toggleGroupItems stringGetter).map ToggleItem.value).Nodup := by
refine ⟨rfl, ?_, ?_⟩
· rfl
· show ([FundingRateResolution.OneHour, FundingRateResolution.EightHour,
    FundingRateResolution.Annualized]).Nodup
  decide

/-- C10: with an empty data sequence the latest funding rate is
undefined, the isNegative flag is false and the output is styled with the
positive color; with a non-empty sequence whose latest datum is d, the
flag is true exactly when the projected rate of d at the selected view is
strictly negative. -/
theorem isNegative_flag_spec (data : List FundingChartDatum)
(view : FundingRateResolution) :
(data = [] →
  latestFundingRate data view = Option.none ∧
  jsLtZero (latestFundingRate data view) = false ∧
  styledOutputColor (jsLtZero (latestFundingRate data view)) =
    "var(--color-positive)") ∧
(data ≠ [] → ∃ d, latestDatum data = Option.some d) ∧
(∀ d, latestDatum data = Option.some d →
  (jsLtZero (latestFundingRate data view) = true ↔
    (getAllFundingRates d.fundingRate).get view < 0)) := by
refine ⟨?_, ?_, ?_⟩
· intro h
  subst h
  exact ⟨rfl, rfl, rfl⟩
· intro h
  cases hl : data.getLast? with
  | none => exact absurd (List.getLast?_eq_none_iff.mp hl) h
  | some d => exact ⟨d, hl⟩
· intro d hd
  unfold latestFundingRate
  rw [hd]
  simp [jsLtZero]

/-- Witness for C10: the empty sequence gives a false flag and the
positive color, and a one-element sequence with a negative rate viewed at
OneHour gives a true flag. -/
theorem isNegative_flag_spec_witness :
jsLtZero (latestFundingRate [] FundingRateResolution.OneHour) = false ∧
jsLtZero (latestFundingRate [⟨0, -1, FundingDirection.ToLong⟩]
  FundingRateResolution.OneHour) = true :=
⟨((isNegative_flag_spec [] FundingRateResolution.OneHour).1 rfl).2.1,
 ((isNegative_flag_spec [⟨0, -1, FundingDirection.ToLong⟩]
    FundingRateResolution.OneHour).2.2 ⟨0, -1, FundingDirection.ToLong⟩
    rfl).mpr (by norm_num [getAllFundingRates, AllFundingRates.get])⟩

/-- C6 counterexample: with an empty data sequence the latest datum is
undefined, and the x-axis label renderer invoked with tooltip data whose
nearest datum is absent throws a type error on the time field access
instead of completing without error. -/
theorem renderXAxisLabel_empty_data_errors :
renderXAxisLabel (latestDatum []) (Option.some ⟨Option.none⟩) =
  Except.error JsError.typeError :=
rfl

/-- C6 amended: when the nearest tooltip datum or the latest datum
exists, both axis label renderers complete without error; an empty data
sequence makes the current-rate value undefined, which suppresses the
display, and a missing localization key falls back to the empty label. -/
theorem graceful_degradation_spec (latest : Option FundingChartDatum)
(view : FundingRateResolution) (td : TooltipData)
(h : td.nearestDatum ≠ Option.none ∨ latest ≠ Option.none) :
exceptSucceeds (renderXAxisLabel latest (Option.some td)) = true ∧
exceptSucceeds (renderYAxisLabel latest view (Option.some td)) = true ∧
latestFundingRate [] view = Option.none ∧
(toggleGroupItems (fun _ => Option.none)).map ToggleItem.label =
  ["", "", ""] := by
have hfall : ∃ d, (td.nearestDatum.map NearestDatum.datum).orElse
    (fun _ => latest) = Option.some d := by
  cases hnd : td.nearestDatum with
  | none =>
    cases hl : latest with
    | none =>
      exfalso
      cases h with
      | inl h1 => exact h1 hnd
      | inr h2 => exact h2 hl
    | some d => exact ⟨d, by simp [hnd, hl, Option.orElse]⟩
  | some nd => exact ⟨nd.datum, by simp [hnd, Option.orElse]⟩
obtain ⟨d, hd⟩ := hfall
refine ⟨?_, ?_, rfl, rfl⟩
· simp [renderXAxisLabel, hd, exceptSucceeds]
· simp [renderYAxisLabel, hd, exceptSucceeds]

/-- Witness for the amended C6: a present latest datum with absent
nearest datum makes both renderers succeed, and the empty data and empty
localization conjuncts hold. -/
theorem graceful_degradation_spec_witness :
exceptSucceeds (renderXAxisLabel
  (Option.some ⟨0, 0, FundingDirection.None⟩)
  (Option.some ⟨Option.none⟩)) = true ∧
exceptSucceeds (renderYAxisLabel
  (Option.some ⟨0, 0, FundingDirection.None⟩)
  FundingRateResolution.OneHour (Option.some ⟨Option.none⟩)) = true ∧
latestFundingRate [] FundingRateResolution.OneHour = Option.none ∧
(toggleGroupItems (fun _ => Option.none)).map ToggleItem.label =
  ["", "", ""] :=
graceful_degradation_spec (Option.some ⟨0, 0, FundingDirection.None⟩)
  FundingRateResolution.OneHour ⟨Option.none⟩
  (Or.inr (by simp))

end FundingChart
